import Mathlib

/-!
Shallow embedding of the song-recommendation core of the repository
(`src/Recommender/recommend.py`, with the canonical feature list of
`src/Recommender/features.py`), and theorems settling the claims of the
specification about it.

Modelling conventions:

* A pandas dataframe is modelled by the parts `recommend_from_song` reads:
  the `song` column (track identifiers), the `artist` column, and the
  numeric (float64/int64) columns in their column order, each a name
  paired with its values.  A `none` cell models a NaN, filled by
  `fillna(0)`.  The dataframe is assumed to carry the default RangeIndex,
  so the lookup `df[df[song] == name].index[0]` is the first row position
  whose `song` entry equals `name`.
* Machine floats are modelled by exact reals; `np.sqrt` is `Real.sqrt`.
* `StandardScaler` of sklearn divides by the population standard deviation
  per column, replacing a zero scale by `1` (its `_handle_zeros_in_scale`),
  so a constant column standardizes to zeros without an arithmetic error.
* `cosine_similarity` of sklearn normalizes each row by its Euclidean norm,
  replacing a zero norm by `1`, so an all-zero row has similarity `0` with
  everything.
* `numpy.ndarray.argsort` is modelled as the stable ascending sort of the
  index range by value.  numpy guarantees exactly this behavior in its
  small-array regime: the default introsort runs a stable insertion sort
  for arrays of at most 16 elements.  Theorems whose conclusion depends on
  the order of tied scores therefore carry the bound of at most 16 catalog
  rows, and every concrete catalog below has at most 4 rows; conclusions
  stated without that bound use the sorted index list only through its
  length, its membership, or equality of whole runs on identical inputs,
  all of which are independent of how ties are broken.
* The tail of `recommend_from_song` (lines 57 to 61) assigns a
  `spotify_link` column through `recs.apply(..., axis=1)`.  On a result
  frame with at least one row this lambda only does string formatting from
  the `artist` and `song` cells (always present in the model) and the
  assignment succeeds, adding a column the claims never read, so it is not
  modelled further.  On a 0-row result frame, however, pandas probes the
  lambda with an empty Series, swallows the resulting KeyError, and makes
  `apply` return the multi-column frame itself; the single-column
  assignment then raises
  `ValueError: Cannot set a DataFrame with multiple columns to the single
  column spotify_link`.  The model therefore raises `ValueError` whenever
  the selected rows are empty, which is exactly the one-song-catalog case.
-/

namespace SpotifyRec

/-- The parts of the songs dataframe that `recommend_from_song` reads:
the `song` identifier column, the `artist` column, and the numeric
columns (name and cells, `none` for NaN) in column order. -/
structure DataFrame where
  songs : List String
  artists : List String
  numeric : List (String × List (Option ℝ))

/-- The list `exclude_cols` of `recommend_from_song`. -/
def exclude_cols : List String :=
  ["artist", "song", "duration_ms", "explicit", "year", "popularity", "genre"]

/-- The exclusion list of the fallback branch of `recommend_from_song`
(all numeric columns apart from `year` and `popularity`). -/
def fallback_exclude : List String := ["year", "popularity"]

/-- Names of the numeric columns, as `select_dtypes` with the float64 and
int64 dtypes returns them. -/
def numericCols (df : DataFrame) : List String := df.numeric.map Prod.fst

/-- The test `col not in exclude_cols` of the primary selection. -/
def keepPrimary (c : String) : Bool := decide (c ∉ exclude_cols)

/-- The test of the fallback selection: the column is neither `year` nor
`popularity`. -/
def keepFallback (c : String) : Bool := decide (c ∉ fallback_exclude)

/-- The feature-column selection of `recommend_from_song`: numeric columns
whose names are not in `exclude_cols`; if none remain, numeric columns not
excluded by the fallback list.  Returned with their values, as
`df[feature_cols]` selects them. -/
def featureColsOf (df : DataFrame) : List (String × List (Option ℝ)) :=
  let primary := df.numeric.filter fun c => keepPrimary c.1
  if primary.isEmpty then df.numeric.filter fun c => keepFallback c.1
  else primary

/-- The name list `feature_cols` computed by `recommend_from_song`. -/
def feature_cols (df : DataFrame) : List String := (featureColsOf df).map Prod.fst

/-- One numeric column after `.fillna(0)`. -/
def filled (v : List (Option ℝ)) : List ℝ := v.map fun o => o.getD 0

/-- The matrix `numeric_df = df[feature_cols].fillna(0)`, stored column-major
(each entry is one feature column of length `df.songs.length`). -/
def featMatrix (df : DataFrame) : List (List ℝ) := (featureColsOf df).map fun c => filled c.2

/-- Arithmetic mean of one column, as `StandardScaler` computes it. -/
noncomputable def mean (l : List ℝ) : ℝ := l.sum / l.length

/-- Population variance of one column (`StandardScaler` uses `ddof = 0`). -/
noncomputable def variance (l : List ℝ) : ℝ :=
  ((l.map fun x => (x - mean l) ^ 2).sum) / l.length

/-- Population standard deviation of one column. -/
noncomputable def stdev (l : List ℝ) : ℝ := Real.sqrt (variance l)

/-- The divisor `StandardScaler` actually uses: a zero standard deviation is
replaced by `1` (the `_handle_zeros_in_scale` rule of sklearn). -/
noncomputable def scaleFactor (l : List ℝ) : ℝ := if stdev l = 0 then 1 else stdev l

/-- One column of `scaler.fit_transform(numeric_df)`: z-score
standardization of the column. -/
noncomputable def standardizeCol (l : List ℝ) : List ℝ :=
  l.map fun x => (x - mean l) / scaleFactor l

/-- The standardized matrix `features_scaled`, column-major. -/
noncomputable def scaledCols (df : DataFrame) : List (List ℝ) :=
  (featMatrix df).map standardizeCol

/-- Row `i` of a column-major matrix (out-of-range cells read as `0`;
never reached for the in-range rows the code touches). -/
def rowVec (cols : List (List ℝ)) (i : ℕ) : List ℝ := cols.map fun c => c.getD i 0

/-- Dot product of two feature rows. -/
def dot (u v : List ℝ) : ℝ := (List.zipWith (fun a b => a * b) u v).sum

/-- Euclidean norm of a feature row. -/
noncomputable def norm2 (u : List ℝ) : ℝ := Real.sqrt (dot u u)

/-- The norm `cosine_similarity` divides by: a zero norm is replaced by `1`
(the `normalize` rule of sklearn), so an all-zero row keeps similarity `0`. -/
noncomputable def nzNorm (u : List ℝ) : ℝ := if norm2 u = 0 then 1 else norm2 u

/-- Cosine similarity of two rows as sklearn computes it. -/
noncomputable def cosineSim (u v : List ℝ) : ℝ := dot u v / (nzNorm u * nzNorm v)

/-- The row position `idx`: first row whose `song` entry equals the query
(default RangeIndex). -/
def queryIdx (df : DataFrame) (song_name : String) : ℕ :=
  df.songs.findIdx fun s => s == song_name

/-- The score array `sims = cosine_similarity(target_vector, features_scaled)[0]`. -/
noncomputable def simsOf (df : DataFrame) (song_name : String) : List ℝ :=
  (List.range df.songs.length).map fun i =>
    cosineSim (rowVec (scaledCols df) (queryIdx df song_name)) (rowVec (scaledCols df) i)

/-- The comparison `sims.argsort()` sorts by: ascending similarity value. -/
def keyLE (s : List ℝ) (i j : ℕ) : Prop := s.getD i 0 ≤ s.getD j 0

noncomputable instance (s : List ℝ) : DecidableRel (keyLE s) := fun i j =>
  inferInstanceAs (Decidable (s.getD i 0 ≤ s.getD j 0))

/-- The index array `sims.argsort()`: indices of all the rows stably sorted
by ascending similarity. -/
noncomputable def argsort (s : List ℝ) : List ℕ :=
  List.insertionSort (keyLE s) (List.range s.length)

/-- The selection `similar_indices`, the slice `argsort()[::-1][1:n+1]`:
reverse to descending order, drop the first entry, keep the next `n`. -/
noncomputable def similarIndices (s : List ℝ) (n : ℕ) : List ℕ :=
  (((argsort s).reverse).drop 1).take n

/-- The recommendation rows `df.iloc[similar_indices]` together with the
similarity column `sims[similar_indices]`: row position paired with score. -/
noncomputable def recsOf (df : DataFrame) (song_name : String) (n : ℕ) : List (ℕ × ℝ) :=
  (similarIndices (simsOf df song_name) n).map fun i => (i, (simsOf df song_name).getD i 0)

/-- What one call of `recommend_from_song` does for the caller: raise
`ValueError`, or return a dataframe of recommendation rows (the empty frame
`pd.DataFrame()` is `frame []`). -/
inductive RecOutcome where
  | valueError (msg : String)
  | frame (rows : List (ℕ × ℝ))

/-- The function `recommend_from_song(song_name, df, n=10)` of
`src/Recommender/recommend.py`: if the query is absent from the `song`
column, return the empty dataframe; if no feature columns survive selection
(including the fallback), raise `ValueError`; if the selected rows are
empty, the `spotify_link` assignment on the 0-row frame raises `ValueError`
(pandas returns the multi-column frame from an empty `apply` and the
single-column assignment fails — see the header); otherwise return the top
rows with their similarity scores, the added link column being pure string
formatting the claims never read. -/
noncomputable def recommend_from_song (song_name : String) (df : DataFrame) (n : ℕ) :
    RecOutcome :=
  if song_name ∈ df.songs then
    if feature_cols df = [] then
      RecOutcome.valueError "No numeric features found for recommendations"
    else if (recsOf df song_name n).isEmpty then
      RecOutcome.valueError
        "Cannot set a DataFrame with multiple columns to the single column spotify_link"
    else RecOutcome.frame (recsOf df song_name n)
  else RecOutcome.frame []

/-- Holds exactly when the outcome is a raised (typed) failure rather than a
returned dataframe. -/
def IsTypedFailure : RecOutcome → Prop
  | RecOutcome.valueError _ => True
  | RecOutcome.frame _ => False

/-- One step of the rescaling used for the invariance claim: a column whose
name matches has every cell multiplied by `c` (NaN cells stay NaN), any
other column is untouched. -/
def colScale (name : String) (c : ℝ) (col : String × List (Option ℝ)) :
    String × List (Option ℝ) :=
  if col.1 = name then (col.1, col.2.map (Option.map fun x => c * x)) else col

/-- Rescaling one numeric column of the catalog by a constant before the
call. -/
def scaleColumn (df : DataFrame) (name : String) (c : ℝ) : DataFrame :=
  { df with numeric := df.numeric.map (colScale name c) }

/-- The canonical feature list `FEATURE_COLS` of `src/Recommender/features.py`. -/
def FEATURE_COLS : List String :=
  ["danceability", "energy", "key", "loudness", "mode", "speechiness", "acousticness",
   "instrumentalness", "liveness", "valence", "tempo", "duration_ms"]

/-- Schema rule as the specification words it (for comparison with the
`feature_cols` the code computes): the intersection of the canonical list
`FEATURE_COLS` with the columns the catalog provides; if empty, all
remaining numeric columns outside a small exclusion set of identifiers,
year and popularity. -/
def specSchema (cols : List String) : List String :=
  let inter := FEATURE_COLS.filter fun c => decide (c ∈ cols)
  if inter = [] then cols.filter fun c => decide (c ∉ ["id", "year", "popularity"]) else inter

/-- A feature column taking value 2 on the first two rows and 0 on the last
two: after standardization its z-scores are 1, 1, -1, -1. -/
def demoCol : List (Option ℝ) := [some 2, some 2, some 0, some 0]

/-- A four-song catalog with one feature column: song B (row 1) has feature
values identical to the query song A (row 0); rows 2 and 3 are identical to
each other but not to the query. -/
def df4 : DataFrame :=
  { songs := ["A", "B", "C", "D"]
    artists := ["w", "x", "y", "z"]
    numeric := [("danceability", demoCol)] }

/-- A two-song catalog whose single feature column is constant. -/
def dfConst : DataFrame :=
  { songs := ["A", "B"]
    artists := ["u", "v"]
    numeric := [("energy", [some 1, some 1])] }

/-- A catalog providing the canonical column `danceability` together with a
numeric column `foo` that is not in `FEATURE_COLS`. -/
def dfFoo : DataFrame :=
  { songs := ["A"]
    artists := ["x"]
    numeric := [("danceability", [some 1]), ("foo", [some 2])] }

/-! ## Concrete evaluation of the pipeline on the catalog `df4` -/

lemma featMatrix_df4 : featMatrix df4 = [[(2:ℝ), 2, 0, 0]] := rfl

lemma mean_demo : mean [(2:ℝ), 2, 0, 0] = 1 := by
  simp [mean]; norm_num

lemma variance_demo : variance [(2:ℝ), 2, 0, 0] = 1 := by
  simp [variance, mean_demo]; norm_num

lemma stdev_demo : stdev [(2:ℝ), 2, 0, 0] = 1 := by
  rw [stdev, variance_demo, Real.sqrt_one]

lemma standardize_demo : standardizeCol [(2:ℝ), 2, 0, 0] = [1, 1, -1, -1] := by
  simp [standardizeCol, scaleFactor, stdev_demo, mean_demo]; norm_num

lemma scaledCols_df4 : scaledCols df4 = [[(1:ℝ), 1, -1, -1]] := by
  rw [scaledCols, featMatrix_df4]; simp [standardize_demo]

lemma queryIdx_df4 : queryIdx df4 "A" = 0 := by decide

lemma norm2_singleton_one : norm2 [(1:ℝ)] = 1 := by
  simp [norm2, dot]

lemma norm2_singleton_negOne : norm2 [(-1:ℝ)] = 1 := by
  simp [norm2, dot]

lemma cosineSim_one_one : cosineSim [(1:ℝ)] [(1:ℝ)] = 1 := by
  simp [cosineSim, nzNorm, norm2_singleton_one, dot]

lemma cosineSim_one_negOne : cosineSim [(1:ℝ)] [(-1:ℝ)] = -1 := by
  simp [cosineSim, nzNorm, norm2_singleton_one, norm2_singleton_negOne, dot]

lemma simsOf_df4 : simsOf df4 "A" = [1, 1, -1, -1] := by
  rw [simsOf, scaledCols_df4, queryIdx_df4]
  have hr : List.range df4.songs.length = [0, 1, 2, 3] := rfl
  rw [hr]
  simp only [List.map_cons, List.map_nil, rowVec]
  norm_num [cosineSim_one_one, cosineSim_one_negOne]

lemma argsort_df4 : argsort [(1:ℝ), 1, -1, -1] = [2, 3, 0, 1] := by
  have hr : List.range ([(1:ℝ), 1, -1, -1]).length = [0, 1, 2, 3] := rfl
  rw [argsort, hr]
  simp only [List.insertionSort, List.orderedInsert]
  norm_num [keyLE]

lemma recsOf_df4 : recsOf df4 "A" 10 = [(0, 1), (3, -1), (2, -1)] := by
  rw [recsOf, similarIndices, simsOf_df4, argsort_df4]
  norm_num

lemma recommend_df4 :
    recommend_from_song "A" df4 10 = RecOutcome.frame [(0, 1), (3, -1), (2, -1)] := by
  rw [recommend_from_song, if_pos (by decide), if_neg (by decide), recsOf_df4]
  rfl

/-! ## Result length -/

/-- C1 (amended): when the query identifier is absent from the `song`
column, `recommend_from_song` returns the empty dataframe, an unflagged
result indistinguishable in type from a legitimate empty recommendation
list; no typed `SongNotFoundError` is raised. -/
theorem C1_amended_empty_frame (df : DataFrame) (s : String) (n : ℕ) (h : s ∉ df.songs) :
    recommend_from_song s df n = RecOutcome.frame [] := by
  rw [recommend_from_song, if_neg h]

/-- Witness for C1: a concrete absent identifier yields the empty frame. -/
theorem C1_witness : recommend_from_song "Z" df4 7 = RecOutcome.frame [] :=
  C1_amended_empty_frame df4 "Z" 7 (by decide)

/-- Counterexample to C1 as stated: on a concrete catalog and an absent
query identifier the call returns the empty unflagged frame, and the
outcome is not a typed failure of any kind — so a missing song is reported
exactly as an empty-but-unflagged result, which the claim forbids. -/
theorem C1_cex :
    recommend_from_song "Z" df4 5 = RecOutcome.frame [] ∧
      IsTypedFailure (recommend_from_song "Z" df4 5) = False := by
  have h : recommend_from_song "Z" df4 5 = RecOutcome.frame [] := by
    rw [recommend_from_song, if_neg (by decide)]
  refine ⟨h, ?_⟩
  rw [h]
  rfl

/-! ## Catalog of exactly one song -/

/-- C8: `recommend_from_song` is a pure function of the catalog snapshot,
the query identifier and the count: two calls with the same arguments return
the same outcome, identical rows in identical order with identical scores. -/
theorem C8_deterministic (df : DataFrame) (s : String) (n : ℕ) (r1 r2 : RecOutcome)
    (h1 : r1 = recommend_from_song s df n) (h2 : r2 = recommend_from_song s df n) :
    r1 = r2 := h1.trans h2.symm

/-- Witness for C8 at a concrete call. -/
theorem C8_witness :
    recommend_from_song "A" df4 10 = recommend_from_song "A" df4 10 :=
  C8_deterministic df4 "A" 10 _ _ rfl rfl

/-! ## Feature schema -/

lemma map_fst_filter (p : String → Bool) (l : List (String × List (Option ℝ))) :
    (l.filter fun c => p c.1).map Prod.fst = (l.map Prod.fst).filter p := by
  induction l with
  | nil => rfl
  | cons a t ih => by_cases h : p a.1 <;> simp [List.filter_cons, h, ih]

/-- C5 (amended): the schema `recommend_from_song` actually scores with is
the list of numeric columns not in its fixed exclusion list (artist, song,
duration_ms, explicit, year, popularity, genre); only when that list is
empty does it fall back to the numeric columns outside year and popularity.
The canonical list `FEATURE_COLS` is never consulted. -/
theorem C5_amended_schema (df : DataFrame) :
    feature_cols df =
      if (numericCols df).filter keepPrimary = [] then
        (numericCols df).filter keepFallback
      else (numericCols df).filter keepPrimary := by
  have h1 := map_fst_filter keepPrimary df.numeric
  have h2 := map_fst_filter keepFallback df.numeric
  rw [feature_cols, featureColsOf]
  simp only [numericCols]
  by_cases h : df.numeric.filter (fun c => keepPrimary c.1) = []
  · rw [if_pos (List.isEmpty_iff.mpr h), h2, if_pos]
    rw [← h1, h]
    rfl
  · rw [if_neg (by simpa [List.isEmpty_iff] using h), h1, if_neg]
    rw [← h1]
    simpa using h

/-- Counterexample to C5 as stated: a catalog providing `danceability` and a
numeric column `foo` outside the canonical list is scored on both columns,
while the intersection rule of the specification would keep `danceability`
only. -/
theorem C5_cex :
    feature_cols dfFoo = ["danceability", "foo"] ∧
      specSchema (numericCols dfFoo) = ["danceability"] := by decide

/-! ## Ordering of the result -/

/-- C2: the code excludes the top-scoring entry of the descending argsort,
not the query row by index.  On the four-song catalog whose row 1 (song B)
has raw feature values identical to row 0 (the query song A), the call
drops the duplicate B and returns the query row itself in first position of
its own recommendation list, with score 1 — the claimed self-exclusion by
row index is violated by the code. -/
theorem C2_query_in_own_result :
    recommend_from_song "A" df4 10 = RecOutcome.frame [(0, 1), (3, -1), (2, -1)] ∧
      df4.songs.getD 0 "" = "A" ∧ df4.songs.getD 1 "" = "B" ∧
      rowVec (featMatrix df4) 1 = rowVec (featMatrix df4) 0 :=
  ⟨recommend_df4, rfl, rfl, rfl⟩

/-! ## Constant feature column -/

lemma variance_nonneg (l : List ℝ) : 0 ≤ variance l := by
  rw [variance]
  apply div_nonneg
  · exact List.sum_nonneg fun x hx => by
      rcases List.mem_map.mp hx with ⟨y, _, rfl⟩
      exact sq_nonneg _
  · exact Nat.cast_nonneg _

lemma variance_eq_zero_of_stdev (l : List ℝ) (h : stdev l = 0) : variance l = 0 :=
  le_antisymm (Real.sqrt_eq_zero'.mp h) (variance_nonneg l)

lemma all_eq_zero_of_sum_eq_zero :
    ∀ (l : List ℝ), (∀ x ∈ l, 0 ≤ x) → l.sum = 0 → ∀ x ∈ l, x = 0 := by
  intro l
  induction l with
  | nil => intro _ _ x hx; exact absurd hx (List.not_mem_nil x)
  | cons a t ih =>
    intro hpos hsum x hx
    have hta : 0 ≤ a := hpos a (List.mem_cons_self a t)
    have htsum : 0 ≤ t.sum := List.sum_nonneg fun y hy => hpos y (List.mem_cons_of_mem a hy)
    rw [List.sum_cons] at hsum
    have ha : a = 0 := by linarith
    have ht : t.sum = 0 := by linarith
    rcases List.mem_cons.mp hx with rfl | hxt
    · exact ha
    · exact ih (fun y hy => hpos y (List.mem_cons_of_mem a hy)) ht x hxt

lemma eq_mean_of_variance_eq_zero (l : List ℝ) (h : variance l = 0) :
    ∀ x ∈ l, x = mean l := by
  intro x hx
  have hne : l ≠ [] := fun hnil => by simp [hnil] at hx
  have hlen : (l.length : ℝ) ≠ 0 := by
    have := List.length_pos.mpr hne
    positivity
  rw [variance, div_eq_zero_iff] at h
  have hsum : ((l.map fun y => (y - mean l) ^ 2).sum) = 0 := h.resolve_right hlen
  have hz := all_eq_zero_of_sum_eq_zero _
    (fun y hy => by rcases List.mem_map.mp hy with ⟨z, _, rfl⟩; exact sq_nonneg _) hsum
    ((x - mean l) ^ 2) (List.mem_map_of_mem _ hx)
  have : x - mean l = 0 := by
    have := sq_eq_zero_iff.mp hz
    exact this
  linarith

/-- C6: a feature column of the selected matrix whose standard deviation is
zero standardizes, without any arithmetic error in the model, to the
uniformly zero column of the standardized matrix. -/
theorem C6_constant_column (df : DataFrame) (l : List ℝ)
    (hl : l ∈ featMatrix df) (h0 : stdev l = 0) :
    standardizeCol l = List.replicate l.length 0 ∧ standardizeCol l ∈ scaledCols df := by
  constructor
  · have hall := eq_mean_of_variance_eq_zero l (variance_eq_zero_of_stdev l h0)
    rw [standardizeCol]
    refine List.eq_replicate_iff.mpr ⟨List.length_map l _, ?_⟩
    intro b hb
    rcases List.mem_map.mp hb with ⟨x, hx, rfl⟩
    rw [hall x hx, sub_self]
    exact zero_div _
  · rw [scaledCols]
    exact List.mem_map_of_mem standardizeCol hl

lemma mean_const_col : mean [(1:ℝ), 1] = 1 := by
  simp [mean]

lemma stdev_const_col : stdev [(1:ℝ), 1] = 0 := by
  have hv : variance [(1:ℝ), 1] = 0 := by
    simp [variance, mean_const_col]
  rw [stdev, hv, Real.sqrt_zero]

/-- Witness for C6 on a concrete constant column of a concrete catalog. -/
theorem C6_witness :
    standardizeCol [(1:ℝ), 1] = List.replicate ([(1:ℝ), 1]).length 0 ∧
      standardizeCol [(1:ℝ), 1] ∈ scaledCols dfConst :=
  C6_constant_column dfConst [(1:ℝ), 1] (List.mem_singleton_self _) stdev_const_col

/-! ## Zero-norm rows -/

lemma dot_self_nonneg : ∀ u : List ℝ, 0 ≤ dot u u := by
  intro u
  induction u with
  | nil => simp [dot]
  | cons a t ih =>
    have : dot (a :: t) (a :: t) = a * a + dot t t := by simp [dot]
    rw [this]
    have := mul_self_nonneg a
    linarith

lemma dot_nil_right (u : List ℝ) : dot u [] = 0 := by
  cases u <;> simp [dot]

lemma dot_eq_zero_of_self :
    ∀ (u : List ℝ), dot u u = 0 → ∀ v : List ℝ, dot u v = 0 := by
  intro u
  induction u with
  | nil => intro _ v; simp [dot]
  | cons a t ih =>
    intro h v
    have hsplit : dot (a :: t) (a :: t) = a * a + dot t t := by simp [dot]
    rw [hsplit] at h
    have h1 : 0 ≤ a * a := mul_self_nonneg a
    have h2 : 0 ≤ dot t t := dot_self_nonneg t
    have ha : a = 0 := by nlinarith
    have ht : dot t t = 0 := by linarith
    cases v with
    | nil => exact dot_nil_right _
    | cons b w =>
      have : dot (a :: t) (b :: w) = a * b + dot t w := by simp [dot]
      rw [this, ha, ih ht w]
      ring

lemma norm2_eq_zero_dot (u : List ℝ) (h : norm2 u = 0) : dot u u = 0 :=
  le_antisymm (Real.sqrt_eq_zero'.mp h) (dot_self_nonneg u)

lemma dot_comm : ∀ (u v : List ℝ), dot u v = dot v u := by
  intro u
  induction u with
  | nil => intro v; cases v <;> simp [dot]
  | cons a t ih =>
    intro v
    cases v with
    | nil => simp [dot]
    | cons b w =>
      have h1 : dot (a :: t) (b :: w) = a * b + dot t w := by simp [dot]
      have h2 : dot (b :: w) (a :: t) = b * a + dot w t := by simp [dot]
      rw [h1, h2, ih w, mul_comm]

/-- C7: a row of the standardized matrix with Euclidean norm zero has
similarity exactly 0 with every vector, in both argument positions — in
particular with the query row, and without NaN or error in the model. -/
theorem C7_zero_norm_similarity (df : DataFrame) (i : ℕ) (v : List ℝ)
    (h : norm2 (rowVec (scaledCols df) i) = 0) :
    cosineSim (rowVec (scaledCols df) i) v = 0 ∧
      cosineSim v (rowVec (scaledCols df) i) = 0 := by
  have hd := norm2_eq_zero_dot _ h
  constructor
  · rw [cosineSim, dot_eq_zero_of_self _ hd v, zero_div]
  · rw [cosineSim, dot_comm, dot_eq_zero_of_self _ hd v, zero_div]

lemma scaledCols_dfConst : scaledCols dfConst = [[0, 0]] := by
  have h1 : featMatrix dfConst = [[(1:ℝ), 1]] := rfl
  rw [scaledCols, h1]
  have h2 : standardizeCol [(1:ℝ), 1] = [0, 0] := by
    simp [standardizeCol, scaleFactor, stdev_const_col, mean_const_col]
  simp [h2]

lemma norm2_zero_row : norm2 (rowVec (scaledCols dfConst) 0) = 0 := by
  rw [scaledCols_dfConst]
  simp [rowVec, norm2, dot]

/-- Witness for C7: the all-zero standardized row of the constant-column
catalog scored against itself gives 0, not 1 and not an error. -/
theorem C7_witness :
    cosineSim (rowVec (scaledCols dfConst) 0) (rowVec (scaledCols dfConst) 0) = 0 ∧
      cosineSim (rowVec (scaledCols dfConst) 0) (rowVec (scaledCols dfConst) 0) = 0 :=
  C7_zero_norm_similarity dfConst 0 (rowVec (scaledCols dfConst) 0) norm2_zero_row

/-! ## Invariance under positive rescaling of a feature column -/

lemma sum_map_mul (c : ℝ) (f : ℝ → ℝ) :
    ∀ l : List ℝ, (l.map fun x => c * f x).sum = c * (l.map f).sum := by
  intro l
  induction l with
  | nil => simp
  | cons a t ih =>
    simp only [List.map_cons, List.sum_cons, ih]
    ring

lemma sum_map_mul_id (c : ℝ) (l : List ℝ) :
    (l.map fun x => c * x).sum = c * l.sum := by
  have h := sum_map_mul c (fun x => x) l
  simpa using h

lemma mean_map_mul (c : ℝ) (l : List ℝ) :
    mean (l.map fun x => c * x) = c * mean l := by
  rw [mean, mean, sum_map_mul_id, List.length_map, mul_div_assoc]

lemma variance_map_mul (c : ℝ) (l : List ℝ) :
    variance (l.map fun x => c * x) = c ^ 2 * variance l := by
  rw [variance, variance, mean_map_mul, List.length_map, List.map_map]
  have h : ((fun x => (x - c * mean l) ^ 2) ∘ fun x => c * x) =
      fun x => c ^ 2 * ((x - mean l) ^ 2) := by
    funext a
    simp only [Function.comp_apply]
    ring
  rw [h, sum_map_mul (c ^ 2) (fun x => (x - mean l) ^ 2) l, mul_div_assoc]

lemma stdev_map_mul (c : ℝ) (l : List ℝ) (hc : 0 ≤ c) :
    stdev (l.map fun x => c * x) = c * stdev l := by
  rw [stdev, stdev, variance_map_mul, Real.sqrt_mul (sq_nonneg c), Real.sqrt_sq hc]

lemma standardizeCol_map_mul (c : ℝ) (l : List ℝ) (hc : 0 < c) :
    standardizeCol (l.map fun x => c * x) = standardizeCol l := by
  by_cases h0 : stdev l = 0
  · have hall := eq_mean_of_variance_eq_zero l (variance_eq_zero_of_stdev l h0)
    rw [standardizeCol, standardizeCol, List.map_map]
    apply List.map_congr_left
    intro a ha
    simp only [Function.comp_apply]
    rw [mean_map_mul, hall a ha, sub_self, sub_self, zero_div, zero_div]
  · have hc0 : c ≠ 0 := ne_of_gt hc
    rw [standardizeCol, standardizeCol, List.map_map]
    apply List.map_congr_left
    intro a _
    simp only [Function.comp_apply]
    rw [mean_map_mul, scaleFactor, scaleFactor, stdev_map_mul c l hc.le,
      if_neg h0, if_neg (mul_ne_zero hc0 h0)]
    rw [show c * a - c * mean l = c * (a - mean l) by ring, mul_div_mul_left _ _ hc0]

lemma colScale_fst (name : String) (c : ℝ) (col : String × List (Option ℝ)) :
    (colScale name c col).1 = col.1 := by
  rw [colScale]
  split <;> rfl

lemma filter_map_colScale (p : String → Bool) (name : String) (c : ℝ)
    (l : List (String × List (Option ℝ))) :
    (l.map (colScale name c)).filter (fun col => p col.1) =
      (l.filter fun col => p col.1).map (colScale name c) := by
  rw [List.filter_map]
  congr 1
  apply List.filter_congr
  intro col _
  simp only [Function.comp_apply, colScale_fst]

lemma featureColsOf_scaleColumn (df : DataFrame) (name : String) (c : ℝ) :
    featureColsOf (scaleColumn df name c) = (featureColsOf df).map (colScale name c) := by
  rw [featureColsOf, featureColsOf]
  simp only [scaleColumn]
  rw [filter_map_colScale, filter_map_colScale]
  by_cases h : (df.numeric.filter fun col => keepPrimary col.1) = []
  · rw [h]
    simp [List.isEmpty_iff, h]
  · rw [if_neg, if_neg]
    · simpa [List.isEmpty_iff] using h
    · simpa [List.isEmpty_iff] using h

lemma filled_scale (c : ℝ) (v : List (Option ℝ)) :
    filled (v.map (Option.map fun x => c * x)) = (filled v).map fun x => c * x := by
  rw [filled, filled, List.map_map, List.map_map]
  apply List.map_congr_left
  intro o _
  cases o with
  | none => simp
  | some a => simp

lemma scaledCols_scaleColumn (df : DataFrame) (name : String) (c : ℝ) (hc : 0 < c) :
    scaledCols (scaleColumn df name c) = scaledCols df := by
  rw [scaledCols, scaledCols, featMatrix, featMatrix, featureColsOf_scaleColumn,
    List.map_map, List.map_map, List.map_map]
  apply List.map_congr_left
  intro col _
  simp only [Function.comp_apply, colScale]
  by_cases h : col.1 = name
  · rw [if_pos h]
    show standardizeCol (filled (col.2.map (Option.map fun x => c * x))) =
      standardizeCol (filled col.2)
    rw [filled_scale, standardizeCol_map_mul c (filled col.2) hc]
  · rw [if_neg h]

lemma simsOf_scaleColumn (df : DataFrame) (name : String) (c : ℝ) (s : String) (hc : 0 < c) :
    simsOf (scaleColumn df name c) s = simsOf df s := by
  rw [simsOf, simsOf, scaledCols_scaleColumn df name c hc]
  rfl

lemma feature_cols_scaleColumn (df : DataFrame) (name : String) (c : ℝ) :
    feature_cols (scaleColumn df name c) = feature_cols df := by
  rw [feature_cols, feature_cols, featureColsOf_scaleColumn, List.map_map]
  apply List.map_congr_left
  intro col _
  simp only [Function.comp_apply, colScale_fst]

lemma recsOf_scaleColumn (df : DataFrame) (name : String) (c : ℝ) (s : String) (n : ℕ)
    (hc : 0 < c) :
    recsOf (scaleColumn df name c) s n = recsOf df s n := by
  rw [recsOf, recsOf, simsOf_scaleColumn df name c s hc]

/-- C9: multiplying every cell of one numeric catalog column by a positive
constant before the call leaves the output of `recommend_from_song`
unchanged — same rows, same order, same scores — because z-score
standardization cancels the rescaling exactly; in particular the similarity
ranking is invariant, as claimed for columns of nonzero variance. -/
theorem C9_rescaling_invariance (df : DataFrame) (name : String) (v : List (Option ℝ))
    (c : ℝ) (_hmem : (name, v) ∈ df.numeric) (_hvar : variance (filled v) ≠ 0) (hc : 0 < c)
    (s : String) (n : ℕ) :
    recommend_from_song s (scaleColumn df name c) n = recommend_from_song s df n := by
  rw [recommend_from_song, recommend_from_song, feature_cols_scaleColumn,
    recsOf_scaleColumn df name c s n hc]
  rfl

/-- Witness for C9: doubling the danceability column of the concrete
four-song catalog, whose filled values have variance 1, changes nothing. -/
theorem C9_witness :
    recommend_from_song "A" (scaleColumn df4 "danceability" 2) 10 =
      recommend_from_song "A" df4 10 :=
  C9_rescaling_invariance df4 "danceability" demoCol 2 (List.mem_singleton_self _)
    (by rw [show filled demoCol = [(2:ℝ), 2, 0, 0] from rfl, variance_demo]; norm_num)
    (by norm_num) "A" 10

end SpotifyRec
